import Mathlib

/-!
Shallow embedding of the Flask user-profile application (`app.py`).

The application keeps a single table of user records; the handlers
`register`, `view_profile`, `edit_profile` and `delete_profile` orchestrate
a pure validator (`validate_user_input`) and single-row queries/writes.
The database table is modelled as a list of `User` records; the primary-key
lookup `User.query.get(id)` becomes `List.find?` on the id, the field
queries `User.query.filter_by(username=...)` / `filter_by(email=...)`
become `List.find?` on the field, and a commit that may raise is modelled
by an explicit `Option String` parameter carrying `str(e)` of the raised
exception (`none` means the commit succeeds).
-/

namespace App

/-- The form mapping handed to `validate_user_input` (and the raw
`request.form`): each of the five known keys may be absent (`none`)
or bound to a string. -/
structure FormInput where
  username : Option String
  email : Option String
  first_name : Option String
  last_name : Option String
  bio : Option String
deriving DecidableEq, Repr

/-- The `form_data` dictionary built inside `register` / `edit_profile`:
every key is present, absent request fields defaulted to `""`
(`request.form.get(key, '')`). -/
structure FormData where
  username : String
  email : String
  first_name : String
  last_name : String
  bio : String
deriving DecidableEq, Repr

/-- `form_data = {k: request.form.get(k, '') for k in the five keys}`
(lines 103-108 and 195-201 of `app.py`). -/
def getFormData (rf : FormInput) : FormData :=
  ⟨rf.username.getD "", rf.email.getD "", rf.first_name.getD "",
   rf.last_name.getD "", rf.bio.getD ""⟩

/-- View the handler-built dictionary again as a mapping with every key
present, as it is passed to `validate_user_input`. -/
def FormData.toInput (f : FormData) : FormInput :=
  ⟨some f.username, some f.email, some f.first_name, some f.last_name, some f.bio⟩

/-- The characters Python's `str.strip()` removes: ASCII whitespace. -/
def pySpace (c : Char) : Bool :=
  c == ' ' || c == '\t' || c == '\n' || c == '\r' || c == '\x0b' || c == '\x0c'

/-- Python `s.strip()`: drop leading and trailing whitespace. -/
def pyStrip (s : String) : String :=
  ⟨((s.data.dropWhile pySpace).reverse.dropWhile pySpace).reverse⟩

/-- Python `c in s` for a single character `c`. -/
def pyContains (s : String) (c : Char) : Bool :=
  s.data.contains c

/-- Helper for `pySplit`: walk the characters, cutting at each separator. -/
def splitCharAux (c : Char) : List Char → List Char → List (List Char)
  | [], acc => [acc.reverse]
  | ch :: cs, acc =>
    if ch == c then acc.reverse :: splitCharAux c cs []
    else splitCharAux c cs (ch :: acc)

/-- Python `s.split(c)` for a one-character separator `c`. -/
def pySplit (s : String) (c : Char) : List String :=
  (splitCharAux c s.data []).map String.mk

/-- Python `s.replace(a, b)` for one-character `a` and `b`. -/
def pyReplace (s : String) (a b : Char) : String :=
  ⟨s.data.map (fun ch => if ch == a then b else ch)⟩

/-- `field not in data or not data[field].strip()`: the required-field
test of `validate_user_input` for one field value. -/
def fieldMissing (v : Option String) : Bool :=
  match v with
  | none => true
  | some s => pyStrip s == ""

/-- The message `f"Field '{field.replace('_', ' ')}' is required."`. -/
def requiredMsg (field : String) : String :=
  "Field \x27" ++ pyReplace field '_' ' ' ++ "\x27 is required."

/-- `validate_user_input` (lines 51-79 of `app.py`): required fields in
the fixed order username, email, first_name, last_name; then the email
format test `'@' not in email or '.' not in email.split('@')[1]`; then
the trimmed-username length test; returns `(is_valid, error_message)`. -/
def validate_user_input (data : FormInput) : Bool × String :=
  if fieldMissing data.username then (false, requiredMsg "username")
  else if fieldMissing data.email then (false, requiredMsg "email")
  else if fieldMissing data.first_name then (false, requiredMsg "first_name")
  else if fieldMissing data.last_name then (false, requiredMsg "last_name")
  else
    let email := data.email.getD ""
    if !(pyContains email '@') || !(pyContains ((pySplit email '@').getD 1 "") '.') then
      (false, "Please enter a valid email address.")
    else if (pyStrip (data.username.getD "")).length < 3 then
      (false, "Username must be at least 3 characters long.")
    else
      (true, "")

/-- A row of the `User` table (the model class of `app.py`, lines 27-47). -/
structure User where
  id : Nat
  username : String
  email : String
  first_name : String
  last_name : String
  bio : String
deriving DecidableEq, Repr

/-- The state of the `User` table. -/
abbrev Store := List User

/-- The auto-incremented primary key SQLite assigns to an inserted row:
one more than the largest id in use. -/
def nextId (s : Store) : Nat :=
  (s.map (fun u => u.id)).foldr Nat.max 0 + 1

/-- What a POST handler leaves behind: the table after the request, whether
the request succeeded, and the flashed message. -/
structure HandlerResult where
  store : Store
  ok : Bool
  message : String
deriving DecidableEq, Repr

/-- The POST branch of `register` (lines 101-150 of `app.py`).
`commitErr = some e` models `db.session.commit()` raising an exception
with `str(e) = e`, after which the session is rolled back. -/
def register (s : Store) (commitErr : Option String) (rf : FormInput) : HandlerResult :=
  let fd := getFormData rf
  let v := validate_user_input fd.toInput
  if !v.1 then ⟨s, false, v.2⟩
  else if (s.find? (fun u => u.username == fd.username)).isSome then
    ⟨s, false, "Username already exists. Please choose a different username."⟩
  else if (s.find? (fun u => u.email == fd.email)).isSome then
    ⟨s, false, "Email already registered. Please use a different email."⟩
  else
    match commitErr with
    | some e => ⟨s, false, "An error occurred during registration: " ++ e⟩
    | none =>
      ⟨s ++ [⟨nextId s, fd.username, fd.email, fd.first_name, fd.last_name, fd.bio⟩],
       true, "User " ++ fd.username ++ " registered successfully!"⟩

/-- `view_profile` (lines 157-171 of `app.py`): read-only; returns either
the looked-up record or the not-found flash and a redirect. -/
def view_profile (s : Store) (uid : Nat) : HandlerResult × Option User :=
  match s.find? (fun u => u.id == uid) with
  | none => (⟨s, false, "User not found."⟩, none)
  | some u => (⟨s, true, ""⟩, some u)

/-- The in-place update `user.username = ...; ...; user.bio = ...`
(lines 226-230 of `app.py`). -/
def updateFields (u : User) (fd : FormData) : User :=
  { u with username := fd.username, email := fd.email,
           first_name := fd.first_name, last_name := fd.last_name, bio := fd.bio }

/-- The POST branch of `edit_profile` (lines 176-242 of `app.py`):
lookup by id, validation, uniqueness checks only when the submitted
username/email differs from the current one, then the in-place update
of all five fields followed by a commit (which may raise `commitErr`). -/
def edit_profile (s : Store) (uid : Nat) (commitErr : Option String)
    (rf : FormInput) : HandlerResult :=
  match s.find? (fun u => u.id == uid) with
  | none => ⟨s, false, "User not found."⟩
  | some user =>
    let fd := getFormData rf
    let v := validate_user_input fd.toInput
    if !v.1 then ⟨s, false, v.2⟩
    else if fd.username != user.username
            && (s.find? (fun u => u.username == fd.username)).isSome then
      ⟨s, false, "Username already exists. Please choose a different username."⟩
    else if fd.email != user.email
            && (s.find? (fun u => u.email == fd.email)).isSome then
      ⟨s, false, "Email already registered. Please use a different email."⟩
    else
      match commitErr with
      | some e => ⟨s, false, "An error occurred while updating the profile: " ++ e⟩
      | none =>
        ⟨s.map (fun u => if u.id == uid then updateFields u fd else u),
         true, "Profile updated successfully!"⟩

/-- `delete_profile` (lines 247-269 of `app.py`): lookup by id, capture
the username, `db.session.delete(user)` (the row with that primary key
is removed) and commit, which may raise `commitErr`. -/
def delete_profile (s : Store) (uid : Nat) (commitErr : Option String) : HandlerResult :=
  match s.find? (fun u => u.id == uid) with
  | none => ⟨s, false, "User not found."⟩
  | some user =>
    match commitErr with
    | some e => ⟨s, false, "An error occurred while deleting the user: " ++ e⟩
    | none =>
      ⟨s.filter (fun u => !(u.id == uid)), true,
       "User " ++ user.username ++ " deleted successfully!"⟩


/-- Modelled from the claim's words: the substring of `s` after the FIRST
occurrence of `'@'` (everything past it, later `'@'` signs included).
Compare with the code's `email.split('@')[1]`, which stops at the second
`'@'`. -/
def substringAfterFirstAt (s : String) : String :=
  match pySplit s '@' with
  | [] => ""
  | _ :: rest => String.intercalate "@" rest

/-- The validator's checks as the claim lists them, in order: each entry is
a failure condition paired with its message. -/
def validateChecks (d : FormInput) : List (Bool × String) :=
  [ (fieldMissing d.username, requiredMsg "username"),
    (fieldMissing d.email, requiredMsg "email"),
    (fieldMissing d.first_name, requiredMsg "first_name"),
    (fieldMissing d.last_name, requiredMsg "last_name"),
    (!(pyContains (d.email.getD "") '@')
       || !(pyContains ((pySplit (d.email.getD "") '@').getD 1 "") '.'),
     "Please enter a valid email address."),
    (decide ((pyStrip (d.username.getD "")).length < 3),
     "Username must be at least 3 characters long.") ]

/-- Modelled from the claim's words: the first failing check determines the
result; on success return `(true, "")`. -/
def validateSpec (d : FormInput) : Bool × String :=
  match (validateChecks d).find? (fun chk => chk.1) with
  | some chk => (false, chk.2)
  | none => (true, "")

end App

namespace App

/-- Every member of a list of naturals is bounded by the `foldr max 0`. -/
theorem le_foldr_max {x : Nat} : ∀ {l : List Nat}, x ∈ l → x ≤ l.foldr Nat.max 0
  | a :: l, h => by
    rcases List.mem_cons.mp h with h | h
    · subst h; exact Nat.le_max_left _ _
    · exact Nat.le_trans (le_foldr_max h) (Nat.le_max_right _ _)

/-- The id `nextId s` hands to a new row is strictly larger than every id
already in the table, hence fresh. -/
theorem id_lt_nextId {s : Store} {u : User} (h : u ∈ s) : u.id < nextId s :=
  Nat.lt_succ_of_le (le_foldr_max (List.mem_map.mpr ⟨u, h, rfl⟩))

/-- `updateFields` never touches the primary key. -/
theorem updateFields_id (u : User) (fd : FormData) : (updateFields u fd).id = u.id := rfl

/-- Looking up `uid` after updating the row `find?` located returns the
updated row. -/
theorem find?_map_update (s : Store) (uid : Nat) (user : User) (fd : FormData)
    (hfind : s.find? (fun u => u.id == uid) = some user) :
    (s.map (fun u => if u.id == uid then updateFields u fd else u)).find?
        (fun u => u.id == uid) = some (updateFields user fd) := by
  induction s with
  | nil => simp at hfind
  | cons h t ih =>
    by_cases hh : (h.id == uid) = true
    · have huser : h = user := by
        simpa [List.find?, hh] using hfind
      subst huser
      simp [List.find?, hh, updateFields_id]
    · have htail : t.find? (fun u => u.id == uid) = some user := by
        simpa [List.find?, hh] using hfind
      simpa [List.find?, hh] using ih htail

/-- A successful edit (with a succeeding commit) found a record and
rewrote exactly the rows carrying `uid`. -/
theorem edit_success_inv (s : Store) (uid : Nat) (rf : FormInput)
    (hok : (edit_profile s uid none rf).ok = true) :
    ∃ user, s.find? (fun u => u.id == uid) = some user ∧
      edit_profile s uid none rf =
        ⟨s.map (fun u => if u.id == uid then updateFields u (getFormData rf) else u),
         true, "Profile updated successfully!"⟩ := by
  cases hfind : s.find? (fun u => u.id == uid) with
  | none => simp [edit_profile, hfind] at hok
  | some user =>
    refine ⟨user, rfl, ?_⟩
    simp only [edit_profile, hfind] at hok ⊢
    by_cases h1 : ((!(validate_user_input (getFormData rf).toInput).1) = true)
    · simp [h1] at hok
    · by_cases h2 : (((getFormData rf).username != user.username
          && (s.find? (fun u => u.username == (getFormData rf).username)).isSome) = true)
      · simp [h1, h2] at hok
      · by_cases h3 : (((getFormData rf).email != user.email
            && (s.find? (fun u => u.email == (getFormData rf).email)).isSome) = true)
        · simp [h1, h2, h3] at hok
        · simp [h1, h2, h3]

/-- When ids are unique and a row with id `uid` is present, filtering it
out removes exactly one row. -/
theorem filter_out_id_length (uid : Nat) :
    ∀ (s : Store), (s.map (fun u => u.id)).Nodup →
      (∃ u ∈ s, u.id = uid) →
      (s.filter (fun u => !(u.id == uid))).length + 1 = s.length := by
  intro s
  induction s with
  | nil => rintro _ ⟨u, hu, _⟩; simp at hu
  | cons h t ih =>
    intro hnodup hex
    have hnodup' := (List.nodup_cons.mp hnodup)
    by_cases hh : h.id = uid
    · have hkeep : t.filter (fun u => !(u.id == uid)) = t := by
        apply List.filter_eq_self.mpr
        intro u hu
        have : u.id ≠ uid := by
          intro hc
          apply hnodup'.1
          show h.id ∈ List.map (fun u => u.id) t
          rw [hh, ← hc]
          exact List.mem_map.mpr ⟨u, hu, rfl⟩
        simp [this]
      simp [List.filter, hh, hkeep]
    · rcases hex with ⟨u, hu, huid⟩
      rcases List.mem_cons.mp hu with rfl | hut
      · exact absurd huid hh
      · have hlen := ih hnodup'.2 ⟨u, hut, huid⟩
        have hb : (h.id == uid) = false := by simp [hh]
        simp [List.filter, hb]
        omega

/-- Claim C1 (counterexample): on the input `{username: "abc",
email: "a@b@c.com", first_name: "A", last_name: "B"}` all four required
fields are present and non-empty after trimming, the email contains `'@'`
and the substring after the first `'@'` (namely `"b@c.com"`) contains
`'.'`, yet `validate_user_input` rejects with the email message — so the
claimed equivalence is false at this input. -/
theorem validate_email_claim_counterexample :
    (fieldMissing (some "abc") = false ∧ fieldMissing (some "a@b@c.com") = false ∧
     fieldMissing (some "A") = false ∧ fieldMissing (some "B") = false) ∧
    pyContains "a@b@c.com" '@' = true ∧
    substringAfterFirstAt "a@b@c.com" = "b@c.com" ∧
    pyContains (substringAfterFirstAt "a@b@c.com") '.' = true ∧
    validate_user_input ⟨some "abc", some "a@b@c.com", some "A", some "B", none⟩
      = (false, "Please enter a valid email address.") ∧
    ¬(((validate_user_input ⟨some "abc", some "a@b@c.com", some "A", some "B", none⟩).1 = false ∧
       (validate_user_input ⟨some "abc", some "a@b@c.com", some "A", some "B", none⟩).2
         = "Please enter a valid email address.") ↔
      ¬(pyContains "a@b@c.com" '@' = true ∧
        pyContains (substringAfterFirstAt "a@b@c.com") '.' = true)) := by
  decide

/-- Claim C1 (amended): for every input whose four required fields are
present and non-empty after trimming, `validate_user_input` fails with
`"Please enter a valid email address."` if and only if the email does not
contain `'@'` or the segment of the email between the first and second
`'@'` (Python `email.split('@')[1]`) does not contain `'.'`; in
particular `"a@b@c.com"` fails this check. -/
theorem validate_email_iff (d : FormInput)
    (h1 : fieldMissing d.username = false) (h2 : fieldMissing d.email = false)
    (h3 : fieldMissing d.first_name = false) (h4 : fieldMissing d.last_name = false) :
    ((validate_user_input d).1 = false ∧
      (validate_user_input d).2 = "Please enter a valid email address.") ↔
    ¬(pyContains (d.email.getD "") '@' = true ∧
      pyContains ((pySplit (d.email.getD "") '@').getD 1 "") '.' = true) := by
  simp only [validate_user_input, h1, h2, h3, h4, Bool.false_eq_true, if_false]
  cases hA : pyContains (d.email.getD "") '@' <;>
    cases hB : pyContains ((pySplit (d.email.getD "") '@').getD 1 "") '.'
  · simp [hA, hB]
  · simp [hA, hB]
  · simp [hA, hB]
  · simp [hA, hB]
    split <;> simp_all

/-- Witness for `validate_email_iff` at the concrete input
`{username: "abc", email: "bad-email", first_name: "A", last_name: "B"}`. -/
theorem validate_email_iff_witness :
    ((validate_user_input ⟨some "abc", some "bad-email", some "A", some "B", none⟩).1 = false ∧
      (validate_user_input ⟨some "abc", some "bad-email", some "A", some "B", none⟩).2
        = "Please enter a valid email address.") ↔
    ¬(pyContains "bad-email" '@' = true ∧
      pyContains ((pySplit "bad-email" '@').getD 1 "") '.' = true) :=
  validate_email_iff ⟨some "abc", some "bad-email", some "A", some "B", none⟩
    (by decide) (by decide) (by decide) (by decide)

/-- Claim C2: `validate_user_input` applies its checks in the fixed order
(required username, email, first_name, last_name with the
underscores-to-spaces message; then the email-format check; then the
3-character minimum on the trimmed username), the first failing check
determines the result, and on success it returns `(true, "")`. -/
theorem validate_checks_in_order (d : FormInput) :
    validate_user_input d = validateSpec d := by
  unfold validate_user_input validateSpec validateChecks
  cases h1 : fieldMissing d.username <;>
  cases h2 : fieldMissing d.email <;>
  cases h3 : fieldMissing d.first_name <;>
  cases h4 : fieldMissing d.last_name
  all_goals simp only [List.find?, h1, h2, h3, h4, if_true, if_false, Bool.false_eq_true]
  cases hE : (!(pyContains (d.email.getD "") '@')
      || !(pyContains ((pySplit (d.email.getD "") '@').getD 1 "") '.'))
  all_goals simp only [hE, if_true, if_false, Bool.false_eq_true]
  by_cases hL : (pyStrip (d.username.getD "")).length < 3
  · simp [hL]
  · simp [hL]

/-- Claim C3: when the submitted fields pass validation, `register` rejects
with the username-collision message if some record has the same username
(this check wins even when the email also collides); otherwise rejects
with the email-collision message if some record has the same email;
otherwise appends exactly one record carrying a fresh id and the five
submitted fields and flashes `"User <username> registered successfully!"`;
in both rejection cases the store is unchanged. -/
theorem register_contract (s : Store) (rf : FormInput)
    (hv : (validate_user_input (getFormData rf).toInput).1 = true) :
    ((∃ u ∈ s, u.username = (getFormData rf).username) →
        register s none rf =
          ⟨s, false, "Username already exists. Please choose a different username."⟩) ∧
    ((∀ u ∈ s, u.username ≠ (getFormData rf).username) →
      (∃ u ∈ s, u.email = (getFormData rf).email) →
        register s none rf =
          ⟨s, false, "Email already registered. Please use a different email."⟩) ∧
    ((∀ u ∈ s, u.username ≠ (getFormData rf).username) →
      (∀ u ∈ s, u.email ≠ (getFormData rf).email) →
        (register s none rf =
          ⟨s ++ [⟨nextId s, (getFormData rf).username, (getFormData rf).email,
                 (getFormData rf).first_name, (getFormData rf).last_name,
                 (getFormData rf).bio⟩],
           true, "User " ++ (getFormData rf).username ++ " registered successfully!"⟩ ∧
         ∀ u ∈ s, u.id ≠ nextId s)) := by
  refine ⟨?_, ?_, ?_⟩
  · rintro ⟨u, hu, he⟩
    have hfu : (s.find? (fun v => v.username == (getFormData rf).username)).isSome := by
      exact List.find?_isSome.mpr ⟨u, hu, by simp [he]⟩
    simp [register, hv, hfu]
  · intro hall ⟨u, hu, he⟩
    have hfu : s.find? (fun v => v.username == (getFormData rf).username) = none := by
      exact List.find?_eq_none.mpr (fun v hvmem => by simp [hall v hvmem])
    have hfe : (s.find? (fun v => v.email == (getFormData rf).email)).isSome := by
      exact List.find?_isSome.mpr ⟨u, hu, by simp [he]⟩
    simp [register, hv, hfu, hfe]
  · intro hallu halle
    have hfu : s.find? (fun v => v.username == (getFormData rf).username) = none := by
      exact List.find?_eq_none.mpr (fun v hvmem => by simp [hallu v hvmem])
    have hfe : s.find? (fun v => v.email == (getFormData rf).email) = none := by
      exact List.find?_eq_none.mpr (fun v hvmem => by simp [halle v hvmem])
    refine ⟨by simp [register, hv, hfu, hfe], ?_⟩
    intro u hu
    exact Nat.ne_of_lt (id_lt_nextId hu)

/-- Witness for `register_contract`: registering `alice` into the empty
store creates the record with id 1 and exactly the submitted fields. -/
theorem register_contract_witness :
    register [] none ⟨some "alice", some "a@b.com", some "A", some "B", some "hi"⟩ =
      ⟨[⟨1, "alice", "a@b.com", "A", "B", "hi"⟩], true, "User alice registered successfully!"⟩ ∧
    (∀ u ∈ ([] : Store), u.id ≠ nextId []) :=
  (register_contract [] ⟨some "alice", some "a@b.com", some "A", some "B", some "hi"⟩
    (by decide)).2.2 (by decide) (by decide)

/-- Claim C4: on an edit of an existing record whose new fields pass
validation, the username-collision check runs only when the submitted
username differs from the record's current username (and likewise for
email): resubmitting the current username can never produce the
username-collision message, resubmitting the current email can never
produce the email-collision message, resubmitting both succeeds outright,
while a differing username that collides with another record is rejected
with the store unchanged. -/
theorem edit_conditional_uniqueness (s : Store) (uid : Nat) (rf : FormInput) (user : User)
    (hfind : s.find? (fun u => u.id == uid) = some user)
    (hv : (validate_user_input (getFormData rf).toInput).1 = true) :
    ((getFormData rf).username = user.username →
        (edit_profile s uid none rf).message ≠
          "Username already exists. Please choose a different username.") ∧
    ((getFormData rf).email = user.email →
        (edit_profile s uid none rf).message ≠
          "Email already registered. Please use a different email.") ∧
    ((getFormData rf).username = user.username → (getFormData rf).email = user.email →
        edit_profile s uid none rf =
          ⟨s.map (fun u => if u.id == uid then updateFields u (getFormData rf) else u),
           true, "Profile updated successfully!"⟩) ∧
    ((getFormData rf).username ≠ user.username →
      (∃ u ∈ s, u.username = (getFormData rf).username) →
        edit_profile s uid none rf =
          ⟨s, false, "Username already exists. Please choose a different username."⟩) := by
  refine ⟨?_, ?_, ?_, ?_⟩
  · intro hu
    simp only [edit_profile, hfind, hv, Bool.not_true, if_false, hu, bne_self_eq_false,
      Bool.false_and, Bool.false_eq_true]
    split <;> simp
  · intro he
    simp only [edit_profile, hfind, hv, Bool.not_true, if_false, he, bne_self_eq_false,
      Bool.false_and, Bool.false_eq_true]
    split <;> simp
  · intro hu he
    simp [edit_profile, hfind, hv, hu, he]
  · intro hu ⟨u, humem, hueq⟩
    have hne : ((getFormData rf).username != user.username) = true := by
      simpa using hu
    have hfu : (s.find? (fun v => v.username == (getFormData rf).username)).isSome := by
      exact List.find?_isSome.mpr ⟨u, humem, by simp [hueq]⟩
    simp [edit_profile, hfind, hv, hne, hfu]

/-- Witness for `edit_conditional_uniqueness`: record 1 resubmits its own
username and email and the edit succeeds, store unchanged in content. -/
theorem edit_conditional_uniqueness_witness :
    edit_profile [⟨1, "abc", "a@b.com", "A", "B", ""⟩] 1 none
        ⟨some "abc", some "a@b.com", some "A", some "B", none⟩ =
      ⟨[⟨1, "abc", "a@b.com", "A", "B", ""⟩], true, "Profile updated successfully!"⟩ :=
  (edit_conditional_uniqueness [⟨1, "abc", "a@b.com", "A", "B", ""⟩] 1
    ⟨some "abc", some "a@b.com", some "A", some "B", none⟩
    ⟨1, "abc", "a@b.com", "A", "B", ""⟩ (by decide) (by decide)).2.2.1 rfl rfl

/-- Claim C5: a successful edit overwrites all five editable fields of the
record with the submitted values; a lookup by the record's id afterwards
returns exactly those values with the id unchanged, and every record with
a different id is still in the store, whose size is unchanged. -/
theorem edit_success_frame (s : Store) (uid : Nat) (rf : FormInput)
    (hok : (edit_profile s uid none rf).ok = true) :
    (edit_profile s uid none rf).store =
        s.map (fun u => if u.id == uid then updateFields u (getFormData rf) else u) ∧
    (edit_profile s uid none rf).store.find? (fun u => u.id == uid) =
        some ⟨uid, (getFormData rf).username, (getFormData rf).email,
              (getFormData rf).first_name, (getFormData rf).last_name,
              (getFormData rf).bio⟩ ∧
    (∀ u ∈ s, u.id ≠ uid → u ∈ (edit_profile s uid none rf).store) ∧
    (edit_profile s uid none rf).store.length = s.length := by
  obtain ⟨user, hfind, heq⟩ := edit_success_inv s uid rf hok
  have hid : user.id = uid := by
    simpa using List.find?_some hfind
  refine ⟨by rw [heq], ?_, ?_, ?_⟩
  · rw [heq]
    have := find?_map_update s uid user (getFormData rf) hfind
    simpa [updateFields, hid] using this
  · intro u hu hne
    rw [heq]
    exact List.mem_map.mpr ⟨u, hu, by simp [hne]⟩
  · rw [heq]
    exact List.length_map s _

/-- Witness for `edit_success_frame`: editing record 1 of a two-record
store replaces all of its five fields and leaves record 2 alone. -/
theorem edit_success_frame_witness :
    (edit_profile [⟨1, "abc", "a@b.com", "A", "B", "old"⟩, ⟨2, "kate", "k@x.org", "K", "T", ""⟩]
        1 none ⟨some "neo", some "n@m.net", some "N", some "O", some "fresh"⟩).store =
      [⟨1, "neo", "n@m.net", "N", "O", "fresh"⟩, ⟨2, "kate", "k@x.org", "K", "T", ""⟩] ∧
    (edit_profile [⟨1, "abc", "a@b.com", "A", "B", "old"⟩, ⟨2, "kate", "k@x.org", "K", "T", ""⟩]
        1 none ⟨some "neo", some "n@m.net", some "N", some "O", some "fresh"⟩).store.find?
        (fun u => u.id == 1) = some ⟨1, "neo", "n@m.net", "N", "O", "fresh"⟩ ∧
    (∀ u ∈ [(⟨1, "abc", "a@b.com", "A", "B", "old"⟩ : User), ⟨2, "kate", "k@x.org", "K", "T", ""⟩],
      u.id ≠ 1 →
      u ∈ (edit_profile [⟨1, "abc", "a@b.com", "A", "B", "old"⟩,
            ⟨2, "kate", "k@x.org", "K", "T", ""⟩]
          1 none ⟨some "neo", some "n@m.net", some "N", some "O", some "fresh"⟩).store) ∧
    (edit_profile [⟨1, "abc", "a@b.com", "A", "B", "old"⟩, ⟨2, "kate", "k@x.org", "K", "T", ""⟩]
        1 none ⟨some "neo", some "n@m.net", some "N", some "O", some "fresh"⟩).store.length = 2 := by
  have h := edit_success_frame
    [⟨1, "abc", "a@b.com", "A", "B", "old"⟩, ⟨2, "kate", "k@x.org", "K", "T", ""⟩]
    1 ⟨some "neo", some "n@m.net", some "N", some "O", some "fresh"⟩ (by decide)
  exact ⟨h.1, h.2.1, h.2.2.1, h.2.2.2⟩

/-- Claim C6: deleting an existing record removes it permanently — the
result is the store filtered of that id, a lookup by the id now fails, the
record count drops by exactly one (given the primary-key uniqueness of
ids), every record with a different id survives, nothing new appears, and
the flash is `"User <username> deleted successfully!"` with the username
captured before the deletion. -/
theorem delete_existing (s : Store) (uid : Nat) (user : User)
    (hfind : s.find? (fun u => u.id == uid) = some user)
    (hnodup : (s.map (fun u => u.id)).Nodup) :
    delete_profile s uid none =
      ⟨s.filter (fun u => !(u.id == uid)), true,
       "User " ++ user.username ++ " deleted successfully!"⟩ ∧
    (delete_profile s uid none).store.find? (fun u => u.id == uid) = none ∧
    (delete_profile s uid none).store.length + 1 = s.length ∧
    (∀ u ∈ s, u.id ≠ uid → u ∈ (delete_profile s uid none).store) ∧
    (∀ u ∈ (delete_profile s uid none).store, u ∈ s) := by
  have hdel : delete_profile s uid none =
      ⟨s.filter (fun u => !(u.id == uid)), true,
       "User " ++ user.username ++ " deleted successfully!"⟩ := by
    simp [delete_profile, hfind]
  have hid : user.id = uid := by simpa using List.find?_some hfind
  have hmem : user ∈ s := List.mem_of_find?_eq_some hfind
  refine ⟨hdel, ?_, ?_, ?_, ?_⟩
  · rw [hdel]
    apply List.find?_eq_none.mpr
    intro u hu
    have := (List.mem_filter.mp hu).2
    simpa using this
  · rw [hdel]
    exact filter_out_id_length uid s hnodup ⟨user, hmem, hid⟩
  · intro u hu hne
    rw [hdel]
    exact List.mem_filter.mpr ⟨hu, by simp [hne]⟩
  · intro u hu
    rw [hdel] at hu
    exact (List.mem_filter.mp hu).1

/-- Witness for `delete_existing`: deleting record 1 of a two-record store
leaves exactly record 2 and flashes the captured username `abc`. -/
theorem delete_existing_witness :
    delete_profile [⟨1, "abc", "a@b.com", "A", "B", ""⟩, ⟨2, "kate", "k@x.org", "K", "T", ""⟩]
        1 none =
      ⟨[⟨2, "kate", "k@x.org", "K", "T", ""⟩], true, "User abc deleted successfully!"⟩ ∧
    (delete_profile [⟨1, "abc", "a@b.com", "A", "B", ""⟩, ⟨2, "kate", "k@x.org", "K", "T", ""⟩]
        1 none).store.find? (fun u => u.id == 1) = none ∧
    (delete_profile [⟨1, "abc", "a@b.com", "A", "B", ""⟩, ⟨2, "kate", "k@x.org", "K", "T", ""⟩]
        1 none).store.length + 1 = 2 ∧
    (∀ u ∈ [(⟨1, "abc", "a@b.com", "A", "B", ""⟩ : User), ⟨2, "kate", "k@x.org", "K", "T", ""⟩],
      u.id ≠ 1 →
      u ∈ (delete_profile [⟨1, "abc", "a@b.com", "A", "B", ""⟩,
            ⟨2, "kate", "k@x.org", "K", "T", ""⟩] 1 none).store) ∧
    (∀ u ∈ (delete_profile [⟨1, "abc", "a@b.com", "A", "B", ""⟩,
            ⟨2, "kate", "k@x.org", "K", "T", ""⟩] 1 none).store,
      u ∈ [(⟨1, "abc", "a@b.com", "A", "B", ""⟩ : User), ⟨2, "kate", "k@x.org", "K", "T", ""⟩]) :=
  delete_existing [⟨1, "abc", "a@b.com", "A", "B", ""⟩, ⟨2, "kate", "k@x.org", "K", "T", ""⟩]
    1 ⟨1, "abc", "a@b.com", "A", "B", ""⟩ (by decide) (by decide)

/-- Claim C7: when no record carries the requested id, viewing, editing
(for any commit outcome and any submitted form) and deleting all fail with
`"User not found."` and leave the store untouched. -/
theorem not_found_requests (s : Store) (uid : Nat)
    (habs : ∀ u ∈ s, u.id ≠ uid) :
    view_profile s uid = (⟨s, false, "User not found."⟩, none) ∧
    (∀ ce rf, edit_profile s uid ce rf = ⟨s, false, "User not found."⟩) ∧
    (∀ ce, delete_profile s uid ce = ⟨s, false, "User not found."⟩) := by
  have hfind : s.find? (fun u => u.id == uid) = none := by
    apply List.find?_eq_none.mpr
    intro u hu
    simp [habs u hu]
  exact ⟨by simp [view_profile, hfind],
         fun ce rf => by simp [edit_profile, hfind],
         fun ce => by simp [delete_profile, hfind]⟩

/-- Witness for `not_found_requests`: id 7 in a one-record store. -/
theorem not_found_requests_witness :
    view_profile [⟨1, "abc", "a@b.com", "A", "B", ""⟩] 7 =
      (⟨[⟨1, "abc", "a@b.com", "A", "B", ""⟩], false, "User not found."⟩, none) ∧
    (∀ ce rf, edit_profile [⟨1, "abc", "a@b.com", "A", "B", ""⟩] 7 ce rf =
      ⟨[⟨1, "abc", "a@b.com", "A", "B", ""⟩], false, "User not found."⟩) ∧
    (∀ ce, delete_profile [⟨1, "abc", "a@b.com", "A", "B", ""⟩] 7 ce =
      ⟨[⟨1, "abc", "a@b.com", "A", "B", ""⟩], false, "User not found."⟩) :=
  not_found_requests [⟨1, "abc", "a@b.com", "A", "B", ""⟩] 7 (by decide)

/-- Claim C8: whenever a request reaches its persistence write (it would
succeed under a succeeding commit) and the commit instead raises an error
`e`, the write is rolled back — the store is exactly the one before the
request — the error text `e` is surfaced verbatim at the end of the
flashed message, and the handler still returns a normal response. -/
theorem persistence_failure_rollback (s : Store) (uid : Nat) (rf : FormInput) (e : String) :
    ((register s none rf).ok = true →
       register s (some e) rf =
         ⟨s, false, "An error occurred during registration: " ++ e⟩) ∧
    ((edit_profile s uid none rf).ok = true →
       edit_profile s uid (some e) rf =
         ⟨s, false, "An error occurred while updating the profile: " ++ e⟩) ∧
    ((delete_profile s uid none).ok = true →
       delete_profile s uid (some e) =
         ⟨s, false, "An error occurred while deleting the user: " ++ e⟩) := by
  refine ⟨?_, ?_, ?_⟩
  · intro hok
    cases hval : (validate_user_input (getFormData rf).toInput).1 with
    | false => simp [register, hval] at hok
    | true =>
      cases hfu : s.find? (fun u => u.username == (getFormData rf).username) with
      | some u => simp [register, hval, hfu] at hok
      | none =>
        cases hfe : s.find? (fun u => u.email == (getFormData rf).email) with
        | some u => simp [register, hval, hfu, hfe] at hok
        | none => simp [register, hval, hfu, hfe]
  · intro hok
    cases hfind : s.find? (fun u => u.id == uid) with
    | none => simp [edit_profile, hfind] at hok
    | some user =>
      cases hval : (validate_user_input (getFormData rf).toInput).1 with
      | false => simp [edit_profile, hfind, hval] at hok
      | true =>
        cases hc1 : ((getFormData rf).username != user.username
            && (s.find? (fun u => u.username == (getFormData rf).username)).isSome) with
        | true => simp [edit_profile, hfind, hval, hc1] at hok
        | false =>
          cases hc2 : ((getFormData rf).email != user.email
              && (s.find? (fun u => u.email == (getFormData rf).email)).isSome) with
          | true => simp [edit_profile, hfind, hval, hc1, hc2] at hok
          | false => simp [edit_profile, hfind, hval, hc1, hc2]
  · intro hok
    cases hfind : s.find? (fun u => u.id == uid) with
    | none => simp [delete_profile, hfind] at hok
    | some user => simp [delete_profile, hfind]

/-- Witness for `persistence_failure_rollback`: a one-record store in
which registering `bob`, editing record 1 to `bob`, and deleting record 1
would each succeed; the commit raises `"database is locked"` and each
handler leaves the store intact while surfacing the text. -/
theorem persistence_failure_rollback_witness :
    register [⟨1, "alice", "al@x.com", "A", "L", ""⟩] (some "database is locked")
        ⟨some "bob", some "b@c.net", some "Bo", some "Bb", none⟩ =
      ⟨[⟨1, "alice", "al@x.com", "A", "L", ""⟩], false,
       "An error occurred during registration: database is locked"⟩ ∧
    edit_profile [⟨1, "alice", "al@x.com", "A", "L", ""⟩] 1 (some "database is locked")
        ⟨some "bob", some "b@c.net", some "Bo", some "Bb", none⟩ =
      ⟨[⟨1, "alice", "al@x.com", "A", "L", ""⟩], false,
       "An error occurred while updating the profile: database is locked"⟩ ∧
    delete_profile [⟨1, "alice", "al@x.com", "A", "L", ""⟩] 1 (some "database is locked") =
      ⟨[⟨1, "alice", "al@x.com", "A", "L", ""⟩], false,
       "An error occurred while deleting the user: database is locked"⟩ :=
  ⟨(persistence_failure_rollback [⟨1, "alice", "al@x.com", "A", "L", ""⟩] 1
      ⟨some "bob", some "b@c.net", some "Bo", some "Bb", none⟩ "database is locked").1
      (by decide),
   (persistence_failure_rollback [⟨1, "alice", "al@x.com", "A", "L", ""⟩] 1
      ⟨some "bob", some "b@c.net", some "Bo", some "Bb", none⟩ "database is locked").2.1
      (by decide),
   (persistence_failure_rollback [⟨1, "alice", "al@x.com", "A", "L", ""⟩] 1
      ⟨some "bob", some "b@c.net", some "Bo", some "Bb", none⟩ "database is locked").2.2
      (by decide)⟩

/-- Claim C9: validation trims only for checking, so a successful
registration or edit stores the raw submitted strings — surrounding
whitespace included — and the uniqueness pre-checks compare those raw
strings: registration succeeds as long as no record equals the raw
username/email exactly, and a successful edit leaves the raw values
under the record's id. -/
theorem raw_values_stored (s : Store) (uid : Nat) (rf : FormInput) :
    ((validate_user_input (getFormData rf).toInput).1 = true →
      (∀ u ∈ s, u.username ≠ rf.username.getD "") →
      (∀ u ∈ s, u.email ≠ rf.email.getD "") →
      register s none rf =
        ⟨s ++ [⟨nextId s, rf.username.getD "", rf.email.getD "", rf.first_name.getD "",
               rf.last_name.getD "", rf.bio.getD ""⟩],
         true, "User " ++ rf.username.getD "" ++ " registered successfully!"⟩) ∧
    ((edit_profile s uid none rf).ok = true →
      (edit_profile s uid none rf).store.find? (fun u => u.id == uid) =
        some ⟨uid, rf.username.getD "", rf.email.getD "", rf.first_name.getD "",
              rf.last_name.getD "", rf.bio.getD ""⟩) := by
  constructor
  · intro hv hallu halle
    have hnu : ¬∃ x ∈ s, x.username = rf.username.getD "" := by
      rintro ⟨x, hx, he⟩
      exact hallu x hx he
    have hne : ¬∃ x ∈ s, x.email = rf.email.getD "" := by
      rintro ⟨x, hx, he⟩
      exact halle x hx he
    simp only [getFormData] at hv
    simp [register, hv, hnu, hne, getFormData]
  · intro hok
    obtain ⟨user, hfind, heq⟩ := edit_success_inv s uid rf hok
    have hid : user.id = uid := by simpa using List.find?_some hfind
    rw [heq]
    have := find?_map_update s uid user (getFormData rf) hfind
    simpa [updateFields, getFormData, hid] using this

/-- Witness for `raw_values_stored`: the username `" abc "` — whose
trimmed length is 3 — differs from the stored `"abc"` only in
whitespace, yet registers as a second, distinct record and is stored
with its surrounding whitespace intact. -/
theorem raw_values_stored_witness :
    register [⟨1, "abc", "x@y.com", "A", "B", ""⟩] none
        ⟨some " abc ", some "a@b.com", some "A", some "B", none⟩ =
      ⟨[⟨1, "abc", "x@y.com", "A", "B", ""⟩, ⟨2, " abc ", "a@b.com", "A", "B", ""⟩],
       true, "User  abc  registered successfully!"⟩ :=
  (raw_values_stored [⟨1, "abc", "x@y.com", "A", "B", ""⟩] 1
      ⟨some " abc ", some "a@b.com", some "A", some "B", none⟩).1
    (by decide) (by decide) (by decide)

/-- Claim C10: an edit whose form omits the bio field overwrites the
record's bio with the empty string — the handler substitutes `""` for the
missing bio and writes all five fields — so a non-empty bio cannot be
preserved by leaving bio out of the submission. -/
theorem edit_missing_bio_blank (s : Store) (uid : Nat) (rf : FormInput)
    (hbio : rf.bio = none)
    (hok : (edit_profile s uid none rf).ok = true) :
    (∃ u ∈ (edit_profile s uid none rf).store, u.id = uid) ∧
    (∀ u ∈ (edit_profile s uid none rf).store, u.id = uid → u.bio = "") := by
  obtain ⟨user, hfind, heq⟩ := edit_success_inv s uid rf hok
  have hid : user.id = uid := by simpa using List.find?_some hfind
  constructor
  · refine ⟨updateFields user (getFormData rf), ?_, ?_⟩
    · rw [heq]
      exact List.mem_map.mpr ⟨user, List.mem_of_find?_eq_some hfind, by simp [hid]⟩
    · simpa [updateFields_id] using hid
  · intro u hu huid
    rw [heq] at hu
    obtain ⟨v, hv, hmap⟩ := List.mem_map.mp hu
    by_cases hvid : (v.id == uid) = true
    · rw [if_pos hvid] at hmap
      rw [← hmap]
      simp [updateFields, getFormData, hbio]
    · rw [if_neg hvid] at hmap
      rw [← hmap] at huid
      simp [huid] at hvid

/-- Witness for `edit_missing_bio_blank`: record 1 has bio `"old bio"`;
the edit form omits bio; afterwards every row carrying id 1 has an empty
bio. -/
theorem edit_missing_bio_blank_witness :
    (∃ u ∈ (edit_profile [⟨1, "abc", "a@b.com", "A", "B", "old bio"⟩] 1 none
        ⟨some "abc", some "a@b.com", some "A", some "B", none⟩).store, u.id = 1) ∧
    (∀ u ∈ (edit_profile [⟨1, "abc", "a@b.com", "A", "B", "old bio"⟩] 1 none
        ⟨some "abc", some "a@b.com", some "A", some "B", none⟩).store,
      u.id = 1 → u.bio = "") :=
  edit_missing_bio_blank [⟨1, "abc", "a@b.com", "A", "B", "old bio"⟩] 1
    ⟨some "abc", some "a@b.com", some "A", some "B", none⟩ rfl (by decide)

end App
